import Mathlib

/-!
Shallow embedding of the reconciliation core of homebridge-ifeel-shutters.

The repository contains three iterations of the per-shutter accessory class
`IFeelShutter`, plus the platform and the hub HTTP client:

* `src/unnamed/part_000` — the polling iteration: `handleTargetPositionSet`
  starts a `setInterval` session guarded by `clearIntervalSafe`, with an
  `intervalDurationSum` accumulator capped by `platform.maxPollingTime`;
  `handleCurrentPositionGet` / `handleTargetPositionGet` resynchronize the
  target position on out-of-band changes.  Embedded in namespace `Polling`.
* `src/src/platformAccessory.ts` — the deferred-check iteration: one 40 s
  `setTimeout` per set-call, `handleTargetPositionGet` answers from local
  state only (no hub round trip).  Embedded in namespace `Deferred`.
* `src/unnamed/part_001` — the minimal iteration (no timer), plus
  `IFeelPlatform` (polling configuration, periodic re-authentication) and
  `IFeelAPI` (authenticate / getShutterPosition / postShutterAction).

Asynchronous structure is embedded by making every handler a pure function of
the eventual outcome of the hub call it performs (`HubRead`, `CmdResult`,
`AuthResult`), returning the successor state, the list of observable events in
execution order, and the value passed to the homebridge completion callback
(`none` when the callback is never invoked).  A promise rejection that reaches
no `.catch`/`await` handler is recorded as the event `Event.unhandledRejection`
at the point in the trace where the rejection settles; none of the handlers in
this code attach a rejection handler, which is exactly what several claims are
about.  Machine integers are embedded as `Int` (positions) and `Nat`
(millisecond durations, timer ids); none of the arithmetic here can overflow a
JS number.
-/

namespace IFeelShutters

/-- HomeKit `Characteristic.PositionState` values, as fixed by the inline
constants of `handlePositionStateGet` in `src/unnamed/part_001` (lines
101-111): 0 = decreasing, 1 = increasing, 2 = stopped. -/
def DECREASING : Int := 0

/-- HomeKit `Characteristic.PositionState.INCREASING`. -/
def INCREASING : Int := 1

/-- HomeKit `Characteristic.PositionState.STOPPED`. -/
def STOPPED : Int := 2

/-- The `state` object of `IFeelShutter`: `{ targetPosition, currentPosition }`
(field order as in the source literal). -/
structure ShutterState where
  targetPosition : Int
  currentPosition : Int
deriving Repr, DecidableEq

/-- The initializer of the `state` field:
`{ targetPosition: 0, currentPosition: 0 }`. -/
def initialState : ShutterState := ⟨0, 0⟩

/-- The constructor's asynchronous seed continuation
(`getShutterPosition(...).then(position => { current := position; target :=
position })`, `src/src/platformAccessory.ts` lines 59-63 and
`src/unnamed/part_000` lines 60-64). -/
def constructorSeed (position : Int) : ShutterState := ⟨position, position⟩

/-- `IFeelShutter.calculateCurrentPositionState`
(`src/src/platformAccessory.ts` lines 66-77, identically
`src/unnamed/part_000` lines 67-78): decreasing when current > target,
increasing when current < target, stopped otherwise. -/
def calculateCurrentPositionState (st : ShutterState) : Int :=
  if st.currentPosition > st.targetPosition then DECREASING
  else if st.currentPosition < st.targetPosition then INCREASING
  else STOPPED

/-- Payloads of the log lines the reconciliation code emits. -/
inductive LogMsg where
  | triggeredGetCurrentPosition
  | triggeredGetTargetPosition
  | triggeredSetTargetPosition (value : Int)
  | triggeredGetPositionState
  | updatingAfterTimeout
  | stoppingPollingMaxTime (shutterId : Int)
  | sendingAuthRequest
  | successfullyAuthenticated
  | postingUnitAction (id value : Int)
  | gotUnitActionResponse
  | gettingUnitData (id : Int)
  | gotUnitDataResponse
deriving Repr, DecidableEq

/-- HomeKit characteristics touched by the code. -/
inductive CharName where
  | currentPosition
  | targetPosition
  | positionState
deriving Repr, DecidableEq

/-- Observable events of one handler invocation, in execution order. -/
inductive Event where
  | logDebug (m : LogMsg)
  | logInfo (m : LogMsg)
  | hubGetPosition (id : Int)
  | hubPostAction (id value : Int)
  | setTargetField (v : Int)
  | clearTimer (t : Nat)
  | startTimer (t : Nat)
  | updateCharacteristic (c : CharName) (v : Int)
  | setCharacteristic (c : CharName) (v : Int)
  | invokeCallback (value : Option Int)
  | unhandledRejection
deriving Repr, DecidableEq

/-- Whether an event is a logger call. -/
def Event.isLog : Event → Bool
  | .logDebug _ => true
  | .logInfo _ => true
  | _ => false

/-- Eventual outcome of one `IFeelAPI.getShutterPosition` round trip. -/
inductive HubRead where
  | ok (position : Int)
  | error
deriving Repr, DecidableEq

/-- Eventual outcome of one `IFeelAPI.postShutterAction` round trip. -/
inductive CmdResult where
  | ok
  | error
deriving Repr, DecidableEq

/-- Eventual outcome of one `IFeelAPI.authenticate` round trip; on success the
hub answers with a fresh session cookie. -/
inductive AuthResult where
  | ok (cookie : String)
  | error
deriving Repr, DecidableEq

/-- Events of `IFeelAPI.getShutterPosition` (`src/unnamed/part_001` lines
325-335): log, GET `units/getUnitByID`, and on success the response log; on
rejection the function's own continuation is skipped (what happens to the
rejection is the caller's business). -/
def getShutterPositionEvents (id : Int) (r : HubRead) : List Event :=
  [.logInfo (.gettingUnitData id), .hubGetPosition id] ++
    match r with
    | .ok _ => [.logInfo .gotUnitDataResponse]
    | .error => []

/-- The part of `IFeelAPI.postShutterAction` (`src/unnamed/part_001` lines
314-323) that runs synchronously before its first `await`: the request log and
the POST to `units/action`. -/
def postShutterActionSyncEvents (id value : Int) : List Event :=
  [.logInfo (.postingUnitAction id value), .hubPostAction id value]

/-- The asynchronous tail of `IFeelAPI.postShutterAction` as observed by its
single (fire-and-forget) caller: on success the response-status log; on
failure the rejected promise reaches no handler, so the rejection settles
unhandled. -/
def postShutterActionAsyncEvents (r : CmdResult) : List Event :=
  match r with
  | .ok => [.logInfo .gotUnitActionResponse]
  | .error => [.unhandledRejection]

/-- `IFeelAPI.authenticate` (`src/unnamed/part_001` lines 300-312): logs,
GETs `auth/login`, and on success logs again and stores the session cookie; on
rejection the cookie is left unchanged and the promise rejects. -/
def authenticate (sessionCookie : String) (r : AuthResult) : String × List Event :=
  match r with
  | .ok cookie => (cookie, [.logInfo .sendingAuthRequest, .logInfo .successfullyAuthenticated])
  | .error => (sessionCookie, [.logInfo .sendingAuthRequest])

/-- One firing of the re-authentication interval installed by `IFeelPlatform`
(`src/unnamed/part_001` lines 172-175):
`setInterval(() => { this.iFeelApi.authenticate(); }, authenticationInterval)`.
The returned promise is neither awaited nor given a rejection handler, so an
authentication failure settles as an unhandled rejection. -/
def reauthTick (sessionCookie : String) (r : AuthResult) : String × List Event :=
  let (c, evs) := authenticate sessionCookie r
  match r with
  | .ok _ => (c, evs)
  | .error => (c, evs ++ [.unhandledRejection])

namespace Polling

/-- Instance fields of the polling iteration of `IFeelShutter`
(`src/unnamed/part_000` lines 11-19): the window-covering state, the
`updateTargetInterval` timer handle (a timer id when a session is live, as the
`NodeJS.Timeout | null | undefined` field is truthy exactly when set), and the
`intervalDurationSum` milliseconds accumulator. -/
structure Shutter where
  state : ShutterState
  updateTargetInterval : Option Nat
  intervalDurationSum : Nat
deriving Repr, DecidableEq

/-- A shutter object together with the event loop's timer table: the set of
interval timers currently scheduled (`liveTimers`) and a supply of fresh timer
ids.  `setInterval` allocates a fresh id and adds it to the table;
`clearInterval` removes one. -/
structure Sys where
  shutter : Shutter
  liveTimers : List Nat
  nextTimerId : Nat
deriving Repr, DecidableEq

/-- A freshly constructed shutter (synchronous part of the constructor): the
field initializers have run, no timer exists, the asynchronous seed read has
not yet completed. -/
def initSys : Sys := ⟨⟨initialState, none, 0⟩, [], 0⟩

/-- Result of one handler invocation: successor system state, events in
execution order, and the value handed to the homebridge callback — `none` when
the callback is never invoked, `some none` for `callback(null)`,
`some (some v)` for `callback(null, v)`. -/
structure HandlerResult where
  sys : Sys
  events : List Event
  callback : Option (Option Int)
deriving Repr, DecidableEq

/-- `IFeelShutter.clearIntervalSafe` (`src/unnamed/part_000` lines 80-86):
clear the interval if one is set and null the handle. -/
def clearIntervalSafe (s : Sys) : Sys × List Event :=
  match s.shutter.updateTargetInterval with
  | some t =>
    (⟨{ s.shutter with updateTargetInterval := none }, s.liveTimers.erase t, s.nextTimerId⟩,
      [.clearTimer t])
  | none => (s, [])

/-- The polling configuration read by `IFeelPlatform`'s constructor
(`src/unnamed/part_001` lines 154-157): the interval comes from the
`pollingInterval` config entry (seconds, times 1000) or defaults to 2500 ms;
the maximum polling time is hardcoded to 1000 * 60 ms. -/
structure Platform where
  pollingInterval : Nat
  maxPollingTime : Nat
deriving Repr, DecidableEq

/-- `IFeelPlatform`'s constructor assignments of the two polling parameters. -/
def mkPlatform (cfgPollingIntervalSeconds : Option Nat) : Platform :=
  { pollingInterval :=
      match cfgPollingIntervalSeconds with
      | some s => s * 1000
      | none => 2500,
    maxPollingTime := 1000 * 60 }

/-- The platform with no `pollingInterval` configured: 2500 ms interval,
60000 ms cap. -/
def defaultPlatform : Platform := mkPlatform none

/-- `handleCurrentPositionGet` of the polling iteration (`src/unnamed/part_000`
lines 91-108): read the hub position; on success store it, resynchronize the
target position when no session is polling and the fresh reading differs from
the target (an out-of-band move), and invoke the callback with the reading.
The promise chain has no rejection handler: on a failed read nothing further
runs and the rejection settles unhandled. -/
def handleCurrentPositionGet (s : Sys) (shutterId : Int) (r : HubRead) : HandlerResult :=
  let pre := .logDebug .triggeredGetCurrentPosition :: getShutterPositionEvents shutterId r
  match r with
  | .error => ⟨s, pre ++ [.unhandledRejection], none⟩
  | .ok position =>
    let st1 : ShutterState := { s.shutter.state with currentPosition := position }
    let resync :=
      if s.shutter.updateTargetInterval = none ∧ st1.currentPosition ≠ st1.targetPosition then
        let st2 : ShutterState := { st1 with targetPosition := position }
        (st2, [Event.updateCharacteristic .targetPosition position,
               Event.updateCharacteristic .positionState (calculateCurrentPositionState st2)])
      else (st1, [])
    ⟨⟨{ s.shutter with state := resync.1 }, s.liveTimers, s.nextTimerId⟩,
      pre ++ resync.2 ++ [.invokeCallback (some position)],
      some (some position)⟩

/-- `handleTargetPositionGet` of the polling iteration (`src/unnamed/part_000`
lines 113-131): read the hub position to check for an out-of-band change,
store it, push the current-position characteristic, resynchronize the target
when not polling and out of sync, and answer with the (possibly resynced)
target position.  No rejection handler. -/
def handleTargetPositionGet (s : Sys) (shutterId : Int) (r : HubRead) : HandlerResult :=
  let pre := .logDebug .triggeredGetTargetPosition :: getShutterPositionEvents shutterId r
  match r with
  | .error => ⟨s, pre ++ [.unhandledRejection], none⟩
  | .ok position =>
    let st1 : ShutterState := { s.shutter.state with currentPosition := position }
    let resync :=
      if s.shutter.updateTargetInterval = none ∧ st1.currentPosition ≠ st1.targetPosition then
        let st2 : ShutterState := { st1 with targetPosition := position }
        (st2, [Event.updateCharacteristic .positionState (calculateCurrentPositionState st2)])
      else (st1, [])
    ⟨⟨{ s.shutter with state := resync.1 }, s.liveTimers, s.nextTimerId⟩,
      pre ++ [.updateCharacteristic .currentPosition position] ++ resync.2 ++
        [.invokeCallback (some resync.1.targetPosition)],
      some (some resync.1.targetPosition)⟩

/-- One firing of the polling interval body installed by
`handleTargetPositionSet` (`src/unnamed/part_000` lines 148-169).  The body
fires only while the interval is scheduled.  On a successful read it adds one
`pollingInterval` to the accumulator, stores the reading, pushes both
characteristics, clears the interval with a log line once the accumulator
reaches `maxPollingTime`, and clears it when the reading equals the target.
On a failed read the `.then` continuation is skipped entirely (the accumulator
does not advance) and the rejection settles unhandled. -/
def pollTick (p : Platform) (shutterId : Int) (s : Sys) (r : HubRead) : Sys × List Event :=
  match s.shutter.updateTargetInterval with
  | none => (s, [])
  | some _ =>
    match r with
    | .error => (s, getShutterPositionEvents shutterId .error ++ [.unhandledRejection])
    | .ok position =>
      let sum1 := s.shutter.intervalDurationSum + p.pollingInterval
      let st1 : ShutterState := { s.shutter.state with currentPosition := position }
      let s1 : Sys := { s with shutter := { s.shutter with state := st1, intervalDurationSum := sum1 } }
      let evs1 := [Event.updateCharacteristic .currentPosition st1.currentPosition,
                   Event.updateCharacteristic .positionState (calculateCurrentPositionState st1)]
      let capped :=
        if p.maxPollingTime ≤ sum1 then
          let c := clearIntervalSafe s1
          (c.1, Event.logInfo (.stoppingPollingMaxTime shutterId) :: c.2)
        else (s1, [])
      let converged :=
        if st1.currentPosition = st1.targetPosition then clearIntervalSafe capped.1
        else (capped.1, [])
      (converged.1, getShutterPositionEvents shutterId r ++ evs1 ++ capped.2 ++ converged.2)

/-- `handleTargetPositionSet` of the polling iteration (`src/unnamed/part_000`
lines 136-172), together with the asynchronous tail of the fire-and-forget
`postShutterAction` call.  Synchronously: debug log; store the target; enter
`postShutterAction` up to its first `await` (request log and POST); zero the
accumulator; cancel any existing interval; schedule a fresh interval; invoke
`callback(null)`.  Only afterwards does the command round trip settle, with
its success log or its unhandled rejection. -/
def handleTargetPositionSet (s : Sys) (shutterId : Int) (value : Int) (r : CmdResult) :
    HandlerResult :=
  let s1 : Sys :=
    { s with shutter := { s.shutter with state := { s.shutter.state with targetPosition := value } } }
  let s2 : Sys := { s1 with shutter := { s1.shutter with intervalDurationSum := 0 } }
  let cleared := clearIntervalSafe s2
  let tid := cleared.1.nextTimerId
  let s4 : Sys := ⟨{ cleared.1.shutter with updateTargetInterval := some tid },
                   cleared.1.liveTimers ++ [tid], tid + 1⟩
  ⟨s4,
    [.logDebug (.triggeredSetTargetPosition value), .setTargetField value] ++
      postShutterActionSyncEvents shutterId value ++
      cleared.2 ++ [.startTimer tid, .invokeCallback none] ++
      postShutterActionAsyncEvents r,
    some none⟩

/-- `handlePositionStateGet` of the polling iteration (`src/unnamed/part_000`
lines 177-184): read the hub position, store it, and answer with the derived
position state.  No rejection handler. -/
def handlePositionStateGet (s : Sys) (shutterId : Int) (r : HubRead) : HandlerResult :=
  let pre := .logDebug .triggeredGetPositionState :: getShutterPositionEvents shutterId r
  match r with
  | .error => ⟨s, pre ++ [.unhandledRejection], none⟩
  | .ok position =>
    let st1 : ShutterState := { s.shutter.state with currentPosition := position }
    ⟨⟨{ s.shutter with state := st1 }, s.liveTimers, s.nextTimerId⟩,
      pre ++ [.invokeCallback (some (calculateCurrentPositionState st1))],
      some (some (calculateCurrentPositionState st1))⟩

/-- The operations the event loop can deliver to one polling-iteration
shutter, each carrying the eventual outcome of the hub round trip it
performs. -/
inductive Op where
  | setTarget (value : Int) (r : CmdResult)
  | tick (r : HubRead)
  | getCurrent (r : HubRead)
  | getTarget (r : HubRead)
  | getPositionState (r : HubRead)
deriving Repr, DecidableEq

/-- State transition of one operation. -/
def execOp (p : Platform) (shutterId : Int) (s : Sys) : Op → Sys
  | .setTarget v r => (handleTargetPositionSet s shutterId v r).sys
  | .tick r => (pollTick p shutterId s r).1
  | .getCurrent r => (handleCurrentPositionGet s shutterId r).sys
  | .getTarget r => (handleTargetPositionGet s shutterId r).sys
  | .getPositionState r => (handlePositionStateGet s shutterId r).sys

/-- State after a sequence of operations. -/
def execOps (p : Platform) (shutterId : Int) (s : Sys) : List Op → Sys
  | [] => s
  | op :: ops => execOps p shutterId (execOp p shutterId s op) ops

/-- Iterated firing of the polling interval: `pollRun ... pos s n` is the
system state and accumulated event trace after the first `n` firings, the
`k`-th read resolving to `pos k`. -/
def pollRun (p : Platform) (shutterId : Int) (pos : Nat → HubRead) (s : Sys) :
    Nat → Sys × List Event
  | 0 => (s, [])
  | n + 1 =>
    let acc := pollRun p shutterId pos s n
    let t := pollTick p shutterId acc.1 (pos n)
    (t.1, acc.2 ++ t.2)

/-- Whether an event is the cap-reached log line for the given shutter. -/
def isCapLog (shutterId : Int) : Event → Bool
  | .logInfo (.stoppingPollingMaxTime i) => i == shutterId
  | _ => false

/-- Number of cap-reached log lines for the given shutter in a trace. -/
def capLogCount (shutterId : Int) (evs : List Event) : Nat :=
  evs.countP (isCapLog shutterId)

/-- The system state right after `handleTargetPositionSet` ran on a freshly
constructed shutter with a fresh timer supply: target recorded, accumulator
zero, one interval scheduled under id 0. -/
def sessionStart (t : Int) : Sys := ⟨⟨⟨t, 0⟩, some 0, 0⟩, [0], 1⟩

/-- Expected system state after `n` firings of a default-configuration polling
session on target `t` whose reads resolve to the stream `q` (never equal to
`t`): while `n < 24` the interval id 0 is live with accumulator `2500 * n`;
from the 24th firing on the interval is cleared with the accumulator frozen at
the 60000 ms cap. -/
def c4State (t : Int) (q : Nat → Int) (n : Nat) : Sys :=
  if n < 24 then ⟨⟨⟨t, if n = 0 then 0 else q (n - 1)⟩, some 0, 2500 * n⟩, [0], 1⟩
  else ⟨⟨⟨t, q 23⟩, none, 60000⟩, [], 1⟩

/-- The timer-table coherence invariant: the event loop's scheduled intervals
are exactly the one held in `updateTargetInterval` (if any), and every
scheduled id was allocated from the supply. -/
def timersWF (s : Sys) : Prop :=
  s.liveTimers = s.shutter.updateTargetInterval.toList ∧
  ∀ t ∈ s.liveTimers, t < s.nextTimerId

/-- Both positions of a state lie in the 0–100 percentage range. -/
def stateInRange (st : ShutterState) : Prop :=
  0 ≤ st.targetPosition ∧ st.targetPosition ≤ 100 ∧
  0 ≤ st.currentPosition ∧ st.currentPosition ≤ 100

/-- The integer an operation feeds into the shutter state — a commanded value
or a hub-reported position — lies in the 0–100 percentage range (a failed
read feeds in nothing). -/
def opInRange : Op → Prop
  | .setTarget v _ => 0 ≤ v ∧ v ≤ 100
  | .tick (.ok q) => 0 ≤ q ∧ q ≤ 100
  | .tick .error => True
  | .getCurrent (.ok q) => 0 ≤ q ∧ q ≤ 100
  | .getCurrent .error => True
  | .getTarget (.ok q) => 0 ≤ q ∧ q ≤ 100
  | .getTarget .error => True
  | .getPositionState (.ok q) => 0 ≤ q ∧ q ≤ 100
  | .getPositionState .error => True

end Polling

namespace Deferred

/-- Instance fields of the deferred-check iteration of `IFeelShutter`
(`src/src/platformAccessory.ts` lines 10-18): the state pair and the
`updateTargetPositionTimeout` handle of the single 40 s deferred re-check. -/
structure Shutter where
  state : ShutterState
  updateTargetPositionTimeout : Option Nat
deriving Repr, DecidableEq

/-- A freshly constructed shutter: field initializers have run (state
`{0, 0}`, no timeout), the asynchronous seed read is still pending. -/
def initShutter : Shutter := ⟨initialState, none⟩

/-- Result of one handler invocation, as in the polling iteration. -/
structure HandlerResult where
  shutter : Shutter
  events : List Event
  callback : Option (Option Int)
deriving Repr, DecidableEq

/-- `handleCurrentPositionGet` (`src/src/platformAccessory.ts` lines 82-89):
read the hub position, store it, answer with it.  No rejection handler. -/
def handleCurrentPositionGet (s : Shutter) (shutterId : Int) (r : HubRead) : HandlerResult :=
  let pre := .logDebug .triggeredGetCurrentPosition :: getShutterPositionEvents shutterId r
  match r with
  | .error => ⟨s, pre ++ [.unhandledRejection], none⟩
  | .ok position =>
    ⟨{ s with state := { s.state with currentPosition := position } },
      pre ++ [.invokeCallback (some position)], some (some position)⟩

/-- `handleTargetPositionGet` (`src/src/platformAccessory.ts` lines 94-97, and
identically in `src/unnamed/part_001` lines 73-76): answer synchronously with
the stored target position; no hub round trip of any kind. -/
def handleTargetPositionGet (s : Shutter) : HandlerResult :=
  ⟨s, [.logDebug .triggeredGetTargetPosition, .invokeCallback (some s.state.targetPosition)],
    some (some s.state.targetPosition)⟩

/-- `handleTargetPositionSet` (`src/src/platformAccessory.ts` lines 102-128)
with the asynchronous tail of the fire-and-forget command: debug log, store
the target, enter `postShutterAction` up to its first `await`, cancel a
pending deferred re-check if any, schedule a fresh 40 s `setTimeout`, invoke
`callback(null)`; the command round trip settles afterwards. -/
def handleTargetPositionSet (s : Shutter) (shutterId : Int) (value : Int)
    (freshTimerId : Nat) (r : CmdResult) : HandlerResult :=
  let s1 : Shutter := { s with state := { s.state with targetPosition := value } }
  let clearEvs :=
    match s1.updateTargetPositionTimeout with
    | some t => [Event.clearTimer t]
    | none => []
  let s2 : Shutter := { s1 with updateTargetPositionTimeout := some freshTimerId }
  ⟨s2,
    [.logDebug (.triggeredSetTargetPosition value), .setTargetField value] ++
      postShutterActionSyncEvents shutterId value ++
      clearEvs ++ [.startTimer freshTimerId, .invokeCallback none] ++
      postShutterActionAsyncEvents r,
    some none⟩

/-- `handlePositionStateGet` (`src/src/platformAccessory.ts` lines 133-140):
read the hub position, store it, answer with the derived position state.  No
rejection handler. -/
def handlePositionStateGet (s : Shutter) (shutterId : Int) (r : HubRead) : HandlerResult :=
  let pre := .logDebug .triggeredGetPositionState :: getShutterPositionEvents shutterId r
  match r with
  | .error => ⟨s, pre ++ [.unhandledRejection], none⟩
  | .ok position =>
    let st1 : ShutterState := { s.state with currentPosition := position }
    ⟨{ s with state := st1 },
      pre ++ [.invokeCallback (some (calculateCurrentPositionState st1))],
      some (some (calculateCurrentPositionState st1))⟩

end Deferred

example : calculateCurrentPositionState ⟨70, 30⟩ = INCREASING := by decide
example : calculateCurrentPositionState ⟨30, 70⟩ = DECREASING := by decide
example : calculateCurrentPositionState ⟨70, 70⟩ = STOPPED := by decide

/-- Claim C1: for every pair of integer positions, the motion-state derivation
`calculateCurrentPositionState` returns `INCREASING` exactly when the current
position is below the target, `DECREASING` exactly when it is above, and
`STOPPED` exactly when the two are equal. -/
theorem motionState_trichotomy (st : ShutterState) :
    (calculateCurrentPositionState st = INCREASING ↔
      st.currentPosition < st.targetPosition) ∧
    (calculateCurrentPositionState st = DECREASING ↔
      st.targetPosition < st.currentPosition) ∧
    (calculateCurrentPositionState st = STOPPED ↔
      st.currentPosition = st.targetPosition) := by
  simp only [calculateCurrentPositionState, INCREASING, DECREASING, STOPPED, gt_iff_lt]
  split_ifs with h1 h2 <;> refine ⟨⟨?_, ?_⟩, ⟨?_, ?_⟩, ⟨?_, ?_⟩⟩ <;> omega

/-- Claim C5: in the deferred-check (no-resync) iteration, setting the target
position to `v` and immediately reading it back answers exactly `v`, with no
hub round trip: the get handler leaves the shutter untouched and its whole
observable trace is the debug log and the callback. -/
theorem targetGet_after_set_no_roundtrip (s : Deferred.Shutter) (shutterId : Int)
    (v : Int) (tid : Nat) (r : CmdResult) :
    (Deferred.handleTargetPositionGet
        (Deferred.handleTargetPositionSet s shutterId v tid r).shutter).callback =
      some (some v) ∧
    (Deferred.handleTargetPositionGet
        (Deferred.handleTargetPositionSet s shutterId v tid r).shutter).events =
      [.logDebug .triggeredGetTargetPosition, .invokeCallback (some v)] ∧
    (Deferred.handleTargetPositionGet
        (Deferred.handleTargetPositionSet s shutterId v tid r).shutter).shutter =
      (Deferred.handleTargetPositionSet s shutterId v tid r).shutter ∧
    (∀ i, Event.hubGetPosition i ∉
      (Deferred.handleTargetPositionGet
          (Deferred.handleTargetPositionSet s shutterId v tid r).shutter).events) := by
  refine ⟨rfl, rfl, rfl, ?_⟩
  intro i
  simp [Deferred.handleTargetPositionGet, Deferred.handleTargetPositionSet]

/-- Claim C9: for every getter that performs a hub read — the polling
iteration's current-position, (resyncing) target-position and position-state
handlers, and the deferred-check iteration's current-position and
position-state handlers — a rejected read means the completion callback is
never invoked: the caller receives neither a value nor an error. -/
theorem getters_no_callback_on_failed_read (s : Polling.Sys) (d : Deferred.Shutter)
    (shutterId : Int) :
    (Polling.handleCurrentPositionGet s shutterId .error).callback = none ∧
    (Polling.handleTargetPositionGet s shutterId .error).callback = none ∧
    (Polling.handlePositionStateGet s shutterId .error).callback = none ∧
    (Deferred.handleCurrentPositionGet d shutterId .error).callback = none ∧
    (Deferred.handlePositionStateGet d shutterId .error).callback = none :=
  ⟨rfl, rfl, rfl, rfl, rfl⟩

/-- Claim C10, counterexample to the claim as stated: in the polling
iteration, a target-position get served before the seed read completes does
not answer 0 — with the hub reporting physical position 70, the handler's own
read takes the resynchronization branch (no interval is live and 70 differs
from the initial target 0), snaps the target to 70 and answers 70. -/
theorem polling_preseed_target_get_not_zero :
    (Polling.handleTargetPositionGet Polling.initSys 1 (.ok 70)).callback = some (some 70) ∧
    (Polling.handleTargetPositionGet Polling.initSys 1
      (.ok 70)).sys.shutter.state.targetPosition = 70 ∧
    some (some (70 : Int)) ≠ some (some (0 : Int)) := by
  decide

/-- Claim C10 (amended): in every iteration the shutter's state is initialized
to current = target = 0 by the field initializer, and the constructor only
schedules the seed read (whose continuation snaps both fields to the first hub
reading) asynchronously.  In the iterations whose target-position getter
answers from local state (the deferred-check and minimal ones), a get served
before the seed completes answers 0 whatever position `p` the pending seed
read will report, and the derived motion state in that window is `STOPPED`.
In the polling iteration the getter performs its own hub read and
resynchronizes, so such a get answers the hub-reported physical position `p`
instead of 0. -/
theorem construction_seed_window_by_variant (p shutterId : Int) :
    initialState = ⟨0, 0⟩ ∧
    Deferred.initShutter.state = initialState ∧
    Polling.initSys.shutter.state = initialState ∧
    constructorSeed p = ⟨p, p⟩ ∧
    (Deferred.handleTargetPositionGet Deferred.initShutter).callback = some (some 0) ∧
    calculateCurrentPositionState Deferred.initShutter.state = STOPPED ∧
    (Polling.handleTargetPositionGet Polling.initSys shutterId (.ok p)).callback =
      some (some p) := by
  refine ⟨rfl, rfl, rfl, rfl, rfl, rfl, ?_⟩
  rcases eq_or_ne p 0 with hp | hp
  · subst hp
    rfl
  · simp [Polling.handleTargetPositionGet, Polling.initSys, initialState,
      getShutterPositionEvents, hp]

/-- Claim C2 (amended): `handleTargetPositionSet` performs its effects in the
claimed order — (a) the target field takes the new value, (b) the position
command is dispatched fire-and-forget, (c) an existing polling session is
cancelled, (d) a fresh session begins with the accumulator zeroed — and the
completion callback is invoked `callback(null)` within the synchronous part,
before the command round trip settles; a command failure is not surfaced to
the caller, but neither is it logged: the rejected command promise has no
handler, so the only log lines of a failing call are the two emitted before
dispatch and the failure settles as an unhandled rejection. -/
theorem setTarget_effect_order (s : Polling.Sys) (shutterId v : Int) (r : CmdResult) :
    (Polling.handleTargetPositionSet s shutterId v r).sys.shutter.state.targetPosition = v ∧
    (Polling.handleTargetPositionSet s shutterId v r).sys.shutter.intervalDurationSum = 0 ∧
    (Polling.handleTargetPositionSet s shutterId v r).sys.shutter.updateTargetInterval =
      some s.nextTimerId ∧
    (Polling.handleTargetPositionSet s shutterId v r).callback = some none ∧
    (Polling.handleTargetPositionSet s shutterId v r).events =
      [.logDebug (.triggeredSetTargetPosition v), .setTargetField v,
       .logInfo (.postingUnitAction shutterId v), .hubPostAction shutterId v] ++
      (match s.shutter.updateTargetInterval with
       | some t0 => [Event.clearTimer t0]
       | none => []) ++
      [.startTimer s.nextTimerId, .invokeCallback none] ++
      (match r with
       | .ok => [Event.logInfo .gotUnitActionResponse]
       | .error => [Event.unhandledRejection]) ∧
    (r = .error →
      (Polling.handleTargetPositionSet s shutterId v r).events.filter Event.isLog =
        [.logDebug (.triggeredSetTargetPosition v), .logInfo (.postingUnitAction shutterId v)]) := by
  obtain ⟨⟨st, timer, sum⟩, live, next⟩ := s
  cases timer <;> cases r <;>
    simp [Polling.handleTargetPositionSet, Polling.clearIntervalSafe,
      postShutterActionSyncEvents, postShutterActionAsyncEvents, Event.isLog]

/-- Claim C2, counterexample to the claim as stated: with the hub rejecting
the command, the set handler's trace contains an unhandled rejection and its
only log lines are the two emitted before the command was dispatched — the
command failure is not logged anywhere, contradicting "a command failure is
only logged". -/
theorem setTarget_command_failure_not_logged :
    Event.unhandledRejection ∈
      (Polling.handleTargetPositionSet Polling.initSys 1 50 .error).events ∧
    (Polling.handleTargetPositionSet Polling.initSys 1 50 .error).events.filter Event.isLog =
      [.logDebug (.triggeredSetTargetPosition 50), .logInfo (.postingUnitAction 1 50)] := by
  decide

/-- Claim C6 (amended): none of the three operation boundaries catches a
failure of its underlying hub call.  A failed scheduled re-authentication, a
failed getter hub read, and a failed fire-and-forget command dispatch each
leave the rejection unhandled: the only log lines of the failing operation are
those emitted before the failure, no error is reported to any caller (the
getter's callback is never invoked), and the failure surfaces as an unhandled
promise rejection — whether that crashes the process is the runtime's
unhandled-rejection policy, not this code's. -/
theorem hub_failures_uncaught (s : Polling.Sys) (shutterId : Int) (cookie : String) :
    ((reauthTick cookie .error).2.filter Event.isLog = [.logInfo .sendingAuthRequest] ∧
     Event.unhandledRejection ∈ (reauthTick cookie .error).2 ∧
     (reauthTick cookie .error).1 = cookie) ∧
    ((Polling.handleCurrentPositionGet s shutterId .error).callback = none ∧
     (Polling.handleCurrentPositionGet s shutterId .error).events.filter Event.isLog =
       [.logDebug .triggeredGetCurrentPosition, .logInfo (.gettingUnitData shutterId)] ∧
     Event.unhandledRejection ∈ (Polling.handleCurrentPositionGet s shutterId .error).events) ∧
    (∀ v, Event.unhandledRejection ∈
        (Polling.handleTargetPositionSet s shutterId v .error).events ∧
      (Polling.handleTargetPositionSet s shutterId v .error).events.filter Event.isLog =
        [.logDebug (.triggeredSetTargetPosition v), .logInfo (.postingUnitAction shutterId v)]) := by
  refine ⟨⟨rfl, by simp [reauthTick, authenticate], rfl⟩,
    ⟨rfl, rfl, by simp [Polling.handleCurrentPositionGet, getShutterPositionEvents]⟩, ?_⟩
  intro v
  obtain ⟨⟨st, timer, sum⟩, live, next⟩ := s
  cases timer <;>
    simp [Polling.handleTargetPositionSet, Polling.clearIntervalSafe,
      postShutterActionSyncEvents, postShutterActionAsyncEvents, Event.isLog]

/-- Claim C6, counterexample to the claim as stated: a failing scheduled
re-authentication is not caught at the operation boundary — its rejection
settles unhandled and the only log line is the pre-failure request log, so no
failure is logged there. -/
theorem reauth_failure_uncaught :
    Event.unhandledRejection ∈ (reauthTick "" .error).2 ∧
    (reauthTick "" .error).2.filter Event.isLog = [Event.logInfo .sendingAuthRequest] := by
  constructor
  · simp [reauthTick, authenticate]
  · rfl

/-- A firing of the polling body whose hub read rejects leaves the whole
system state untouched: the accumulator line sits inside the read's success
continuation, which is skipped. -/
theorem pollTick_error_frozen (p : Polling.Platform) (shutterId : Int) (s : Polling.Sys) :
    (Polling.pollTick p shutterId s .error).1 = s ∧
    Polling.capLogCount shutterId (Polling.pollTick p shutterId s .error).2 = 0 := by
  cases ht : s.shutter.updateTargetInterval <;>
    simp [Polling.pollTick, ht, Polling.capLogCount, Polling.isCapLog, getShutterPositionEvents]

/-- Claim C8: elapsed polling time only accumulates inside the success
continuation of the hub read, so a polling session all of whose reads fail
never advances the accumulator, never reaches the maximum-polling-time cap,
and keeps its interval timer exactly as it was: after any number of failing
firings the system state is unchanged and no cap-reached log line was
emitted. -/
theorem polling_frozen_on_failed_reads (p : Polling.Platform) (shutterId : Int)
    (s : Polling.Sys) (n : Nat) :
    (Polling.pollRun p shutterId (fun _ => .error) s n).1 = s ∧
    (Polling.pollRun p shutterId (fun _ => .error) s n).1.shutter.intervalDurationSum =
      s.shutter.intervalDurationSum ∧
    (Polling.pollRun p shutterId (fun _ => .error) s n).1.shutter.updateTargetInterval =
      s.shutter.updateTargetInterval ∧
    Polling.capLogCount shutterId (Polling.pollRun p shutterId (fun _ => .error) s n).2 = 0 := by
  induction n with
  | zero => simp [Polling.pollRun, Polling.capLogCount]
  | succ n ih =>
    obtain ⟨ih1, -, -, ih4⟩ := ih
    have h1 : (Polling.pollRun p shutterId (fun _ => .error) s (n + 1)).1 = s := by
      show (Polling.pollTick p shutterId
        (Polling.pollRun p shutterId (fun _ => .error) s n).1 .error).1 = s
      rw [ih1, (pollTick_error_frozen p shutterId s).1]
    refine ⟨h1, by rw [h1], by rw [h1], ?_⟩
    show Polling.capLogCount shutterId
      ((Polling.pollRun p shutterId (fun _ => .error) s n).2 ++
        (Polling.pollTick p shutterId
          (Polling.pollRun p shutterId (fun _ => .error) s n).1 .error).2) = 0
    have h4 := (pollTick_error_frozen p shutterId
      (Polling.pollRun p shutterId (fun _ => .error) s n).1).2
    unfold Polling.capLogCount at h4 ih4 ⊢
    rw [List.countP_append]
    omega

/-- The freshly constructed shutter has a coherent (empty) timer table. -/
theorem timersWF_initSys : Polling.timersWF Polling.initSys :=
  ⟨rfl, by intro t h; simp [Polling.initSys] at h⟩

/-- On a coherent system, `clearIntervalSafe` empties the timer table, nulls
the handle, and touches nothing else. -/
theorem clearIntervalSafe_spec (s : Polling.Sys) (h : Polling.timersWF s) :
    (Polling.clearIntervalSafe s).1.liveTimers = [] ∧
    (Polling.clearIntervalSafe s).1.shutter.updateTargetInterval = none ∧
    (Polling.clearIntervalSafe s).1.nextTimerId = s.nextTimerId ∧
    (Polling.clearIntervalSafe s).1.shutter.state = s.shutter.state ∧
    (Polling.clearIntervalSafe s).1.shutter.intervalDurationSum = s.shutter.intervalDurationSum := by
  obtain ⟨h1, -⟩ := h
  obtain ⟨⟨st, timer, sum⟩, live, next⟩ := s
  cases timer <;> simp_all [Polling.clearIntervalSafe, Option.toList]

/-- On a coherent system, `handleTargetPositionSet` cancels whatever was
scheduled and leaves exactly one freshly allocated interval, a zeroed
accumulator, and a coherent table. -/
theorem setTarget_timers (s : Polling.Sys) (shutterId v : Int) (r : CmdResult)
    (h : Polling.timersWF s) :
    (Polling.handleTargetPositionSet s shutterId v r).sys.liveTimers = [s.nextTimerId] ∧
    (Polling.handleTargetPositionSet s shutterId v r).sys.shutter.updateTargetInterval =
      some s.nextTimerId ∧
    (Polling.handleTargetPositionSet s shutterId v r).sys.nextTimerId = s.nextTimerId + 1 ∧
    (Polling.handleTargetPositionSet s shutterId v r).sys.shutter.intervalDurationSum = 0 ∧
    Polling.timersWF (Polling.handleTargetPositionSet s shutterId v r).sys := by
  obtain ⟨h1, h2⟩ := h
  obtain ⟨⟨st, timer, sum⟩, live, next⟩ := s
  cases timer <;>
    simp_all [Polling.handleTargetPositionSet, Polling.clearIntervalSafe,
      Polling.timersWF, Option.toList]

/-- A firing of the polling body preserves timer-table coherence and
allocates nothing. -/
theorem pollTick_timers (p : Polling.Platform) (shutterId : Int) (s : Polling.Sys)
    (r : HubRead) (h : Polling.timersWF s) :
    Polling.timersWF (Polling.pollTick p shutterId s r).1 ∧
    (Polling.pollTick p shutterId s r).1.nextTimerId = s.nextTimerId := by
  obtain ⟨h1, h2⟩ := h
  obtain ⟨⟨st, timer, sum⟩, live, next⟩ := s
  cases timer with
  | none => exact ⟨⟨h1, h2⟩, rfl⟩
  | some t0 =>
    cases r with
    | error => exact ⟨⟨h1, h2⟩, rfl⟩
    | ok q =>
      simp only [Option.toList] at h1
      subst h1
      simp only [Polling.pollTick]
      split_ifs <;>
        simp_all [Polling.clearIntervalSafe, Polling.timersWF, Option.toList]

/-- The three getter handlers never touch the timer table. -/
theorem getters_timers (s : Polling.Sys) (shutterId : Int) (r : HubRead)
    (h : Polling.timersWF s) :
    (Polling.timersWF (Polling.handleCurrentPositionGet s shutterId r).sys ∧
      (Polling.handleCurrentPositionGet s shutterId r).sys.nextTimerId = s.nextTimerId) ∧
    (Polling.timersWF (Polling.handleTargetPositionGet s shutterId r).sys ∧
      (Polling.handleTargetPositionGet s shutterId r).sys.nextTimerId = s.nextTimerId) ∧
    (Polling.timersWF (Polling.handlePositionStateGet s shutterId r).sys ∧
      (Polling.handlePositionStateGet s shutterId r).sys.nextTimerId = s.nextTimerId) := by
  obtain ⟨h1, h2⟩ := h
  obtain ⟨⟨st, timer, sum⟩, live, next⟩ := s
  cases r <;>
    simp_all [Polling.handleCurrentPositionGet, Polling.handleTargetPositionGet,
      Polling.handlePositionStateGet, Polling.timersWF]

/-- Every operation preserves timer-table coherence. -/
theorem execOp_timersWF (p : Polling.Platform) (shutterId : Int) (s : Polling.Sys)
    (op : Polling.Op) (h : Polling.timersWF s) :
    Polling.timersWF (Polling.execOp p shutterId s op) := by
  cases op with
  | setTarget v r => exact (setTarget_timers s shutterId v r h).2.2.2.2
  | tick r => exact (pollTick_timers p shutterId s r h).1
  | getCurrent r => exact (getters_timers s shutterId r h).1.1
  | getTarget r => exact (getters_timers s shutterId r h).2.1.1
  | getPositionState r => exact (getters_timers s shutterId r h).2.2.1

/-- Timer-table coherence holds in every reachable state. -/
theorem execOps_timersWF (p : Polling.Platform) (shutterId : Int) (ops : List Polling.Op)
    (s : Polling.Sys) (h : Polling.timersWF s) :
    Polling.timersWF (Polling.execOps p shutterId s ops) := by
  induction ops generalizing s with
  | nil => exact h
  | cons op ops ih => exact ih _ (execOp_timersWF p shutterId s op h)

/-- Claim C3: in every state reachable by any sequence of operations from
construction, at most one interval timer is scheduled; and a second
`handleTargetPositionSet` arriving while a session is live cancels and
replaces it — afterwards exactly one timer is scheduled, none of the timers of
the first session survives, and the elapsed-time accumulator is reset to
zero — rather than stacking a second timer. -/
theorem at_most_one_live_timer (p : Polling.Platform) (shutterId : Int)
    (ops : List Polling.Op) (v1 v2 : Int) (r1 r2 : CmdResult) :
    (Polling.execOps p shutterId Polling.initSys ops).liveTimers.length ≤ 1 ∧
    ((Polling.handleTargetPositionSet
        (Polling.handleTargetPositionSet (Polling.execOps p shutterId Polling.initSys ops)
          shutterId v1 r1).sys
        shutterId v2 r2).sys.liveTimers.length = 1 ∧
      (∀ t ∈ (Polling.handleTargetPositionSet (Polling.execOps p shutterId Polling.initSys ops)
          shutterId v1 r1).sys.liveTimers,
        t ∉ (Polling.handleTargetPositionSet
          (Polling.handleTargetPositionSet (Polling.execOps p shutterId Polling.initSys ops)
            shutterId v1 r1).sys
          shutterId v2 r2).sys.liveTimers) ∧
      (Polling.handleTargetPositionSet
        (Polling.handleTargetPositionSet (Polling.execOps p shutterId Polling.initSys ops)
          shutterId v1 r1).sys
        shutterId v2 r2).sys.shutter.intervalDurationSum = 0) := by
  have hwf := execOps_timersWF p shutterId ops Polling.initSys timersWF_initSys
  have hset1 := setTarget_timers _ shutterId v1 r1 hwf
  have hset2 := setTarget_timers _ shutterId v2 r2 hset1.2.2.2.2
  refine ⟨?_, ?_, ?_, hset2.2.2.2.1⟩
  · rw [hwf.1]
    cases (Polling.execOps p shutterId Polling.initSys ops).shutter.updateTargetInterval <;>
      simp [Option.toList]
  · rw [hset2.1]
    rfl
  · intro t ht
    rw [hset1.1] at ht
    rw [hset2.1, hset1.2.2.1]
    simp only [List.mem_singleton] at ht
    simp [ht]

/-- One operation keeps both positions in 0–100 when the value it feeds in is
in 0–100: every mutation of the state pair copies either the commanded value
or a hub reading into a field, with no other arithmetic. -/
theorem execOp_inRange (p : Polling.Platform) (shutterId : Int) (s : Polling.Sys)
    (op : Polling.Op) (hs : Polling.stateInRange s.shutter.state)
    (hop : Polling.opInRange op) :
    Polling.stateInRange (Polling.execOp p shutterId s op).shutter.state := by
  obtain ⟨hs1, hs2, hs3, hs4⟩ := hs
  obtain ⟨⟨⟨tp, cp⟩, timer, sum⟩, live, next⟩ := s
  cases op with
  | setTarget v r =>
    obtain ⟨hv1, hv2⟩ := hop
    cases timer <;>
      simp_all [Polling.execOp, Polling.handleTargetPositionSet, Polling.clearIntervalSafe,
        Polling.stateInRange, Polling.opInRange]
  | tick r =>
    cases r with
    | error =>
      cases timer <;>
        simp_all [Polling.execOp, Polling.pollTick, Polling.stateInRange]
    | ok q =>
      obtain ⟨hq1, hq2⟩ := hop
      cases timer with
      | none => simp_all [Polling.execOp, Polling.pollTick, Polling.stateInRange]
      | some t0 =>
        simp only [Polling.execOp, Polling.pollTick]
        split_ifs <;>
          simp_all [Polling.clearIntervalSafe, Polling.stateInRange]
  | getCurrent r =>
    cases r with
    | error => exact ⟨hs1, hs2, hs3, hs4⟩
    | ok q =>
      obtain ⟨hq1, hq2⟩ := hop
      simp only [Polling.execOp, Polling.handleCurrentPositionGet]
      split_ifs <;> simp_all [Polling.stateInRange]
  | getTarget r =>
    cases r with
    | error => exact ⟨hs1, hs2, hs3, hs4⟩
    | ok q =>
      obtain ⟨hq1, hq2⟩ := hop
      simp only [Polling.execOp, Polling.handleTargetPositionGet]
      split_ifs <;> simp_all [Polling.stateInRange]
  | getPositionState r =>
    cases r with
    | error => exact ⟨hs1, hs2, hs3, hs4⟩
    | ok q =>
      obtain ⟨hq1, hq2⟩ := hop
      simp_all [Polling.execOp, Polling.handlePositionStateGet, Polling.stateInRange]

/-- Claim C7 (amended): provided every commanded target value and every
hub-reported position lies in the 0–100 percentage range, both positions of
every reachable tracker state lie in 0–100 (starting from the 0,0
construction state).  The code itself enforces no bounds: it copies inputs
into the state unchecked, so the invariant is conditional on the inputs. -/
theorem positions_in_range (p : Polling.Platform) (shutterId : Int)
    (ops : List Polling.Op) (h : ∀ op ∈ ops, Polling.opInRange op) :
    Polling.stateInRange (Polling.execOps p shutterId Polling.initSys ops).shutter.state := by
  have gen : ∀ (l : List Polling.Op) (s : Polling.Sys),
      Polling.stateInRange s.shutter.state → (∀ op ∈ l, Polling.opInRange op) →
      Polling.stateInRange (Polling.execOps p shutterId s l).shutter.state := by
    intro l
    induction l with
    | nil => intro s hs _; exact hs
    | cons op ops ih =>
      intro s hs hl
      exact ih _ (execOp_inRange p shutterId s op hs (hl op (by simp)))
        (fun o ho => hl o (by simp [ho]))
  have h0 : Polling.stateInRange Polling.initSys.shutter.state := by
    refine ⟨?_, ?_, ?_, ?_⟩ <;> norm_num [Polling.initSys, initialState]
  exact gen ops Polling.initSys h0 h

/-- Claim C7, witness: a set command to 50 followed by a poll firing reading
30 keeps both positions in range. -/
theorem positions_in_range_witness :
    Polling.stateInRange
      (Polling.execOps Polling.defaultPlatform 1 Polling.initSys
        [.setTarget 50 .ok, .tick (.ok 30)]).shutter.state := by
  refine positions_in_range Polling.defaultPlatform 1 _ ?_
  intro op hop
  fin_cases hop <;> exact ⟨by norm_num, by norm_num⟩

/-- Claim C7, counterexample to the claim as stated: the code clamps nothing,
so a single `handleTargetPositionSet` with the out-of-range value 150 puts the
tracker in a reachable state whose target position is 150, outside 0–100. -/
theorem positions_escape_range :
    ¬ Polling.stateInRange
      (Polling.execOp Polling.defaultPlatform 1 Polling.initSys
        (.setTarget 150 .ok)).shutter.state := by
  intro h
  have h150 : (Polling.execOp Polling.defaultPlatform 1 Polling.initSys
      (.setTarget 150 .ok)).shutter.state.targetPosition = 150 := rfl
  have h2 := h.2.1
  omega


theorem pollTick_live_under (shutterId t c q : Int) (sum : Nat) (hne : q ≠ t)
    (hsum : sum + 2500 < 60000) :
    (Polling.pollTick Polling.defaultPlatform shutterId ⟨⟨⟨t, c⟩, some 0, sum⟩, [0], 1⟩ (.ok q)).1 =
      ⟨⟨⟨t, q⟩, some 0, sum + 2500⟩, [0], 1⟩ ∧
    Polling.capLogCount shutterId
      (Polling.pollTick Polling.defaultPlatform shutterId ⟨⟨⟨t, c⟩, some 0, sum⟩, [0], 1⟩ (.ok q)).2 = 0 := by
  have hcap : ¬ ((60000 : Nat) ≤ sum + 2500) := by omega
  constructor <;>
    simp [Polling.pollTick, Polling.defaultPlatform, Polling.mkPlatform, hcap, hne,
      Polling.capLogCount, Polling.isCapLog, getShutterPositionEvents]

theorem pollTick_live_cap (shutterId t c q : Int) (sum : Nat) (hne : q ≠ t)
    (hsum : (60000 : Nat) ≤ sum + 2500) :
    (Polling.pollTick Polling.defaultPlatform shutterId ⟨⟨⟨t, c⟩, some 0, sum⟩, [0], 1⟩ (.ok q)).1 =
      ⟨⟨⟨t, q⟩, none, sum + 2500⟩, [], 1⟩ ∧
    Polling.capLogCount shutterId
      (Polling.pollTick Polling.defaultPlatform shutterId ⟨⟨⟨t, c⟩, some 0, sum⟩, [0], 1⟩ (.ok q)).2 = 1 := by
  constructor <;>
    simp [Polling.pollTick, Polling.defaultPlatform, Polling.mkPlatform, hsum, hne,
      Polling.clearIntervalSafe, Polling.capLogCount, Polling.isCapLog, getShutterPositionEvents]

theorem pollTick_dead (p : Polling.Platform) (shutterId : Int) (s : Polling.Sys) (r : HubRead)
    (h : s.shutter.updateTargetInterval = none) :
    Polling.pollTick p shutterId s r = (s, []) := by
  simp [Polling.pollTick, h]

theorem pollRun_neverConverge (t : Int) (q : Nat → Int) (shutterId : Int)
    (hq : ∀ n, q n ≠ t) (n : Nat) :
    (Polling.pollRun Polling.defaultPlatform shutterId (fun k => .ok (q k))
        (Polling.sessionStart t) n).1 = Polling.c4State t q n ∧
    Polling.capLogCount shutterId
      (Polling.pollRun Polling.defaultPlatform shutterId (fun k => .ok (q k))
        (Polling.sessionStart t) n).2 = if 24 ≤ n then 1 else 0 := by
  induction n with
  | zero =>
    constructor
    · rfl
    · simp [Polling.pollRun, Polling.capLogCount]
  | succ n ih =>
    obtain ⟨ih1, ih2⟩ := ih
    have hrun : Polling.pollRun Polling.defaultPlatform shutterId (fun k => .ok (q k))
        (Polling.sessionStart t) (n + 1) =
      ((Polling.pollTick Polling.defaultPlatform shutterId
          (Polling.pollRun Polling.defaultPlatform shutterId (fun k => .ok (q k))
            (Polling.sessionStart t) n).1 (.ok (q n))).1,
        (Polling.pollRun Polling.defaultPlatform shutterId (fun k => .ok (q k))
          (Polling.sessionStart t) n).2 ++
        (Polling.pollTick Polling.defaultPlatform shutterId
          (Polling.pollRun Polling.defaultPlatform shutterId (fun k => .ok (q k))
            (Polling.sessionStart t) n).1 (.ok (q n))).2) := rfl
    rw [hrun, ih1]
    rcases Nat.lt_trichotomy (n + 1) 24 with h24 | h24 | h24
    · -- still under the cap
      have hst : Polling.c4State t q n =
          ⟨⟨⟨t, if n = 0 then 0 else q (n - 1)⟩, some 0, 2500 * n⟩, [0], 1⟩ := by
        simp only [Polling.c4State]
        rw [if_pos (by omega)]
      rw [hst]
      obtain ⟨e1, e2⟩ := pollTick_live_under shutterId t (if n = 0 then 0 else q (n - 1)) (q n)
        (2500 * n) (hq n) (by omega)
      constructor
      · rw [e1]
        simp only [Polling.c4State]
        rw [if_pos h24, if_neg (show ¬(n + 1 = 0) by omega), Nat.add_sub_cancel,
          show 2500 * (n + 1) = 2500 * n + 2500 by ring]
      · unfold Polling.capLogCount at ih2 e2 ⊢
        rw [List.countP_append, ih2, e2]
        split_ifs <;> omega
    · -- the 24th firing: cap reached
      have hn : n = 23 := by omega
      subst hn
      have hst : Polling.c4State t q 23 = ⟨⟨⟨t, q 22⟩, some 0, 2500 * 23⟩, [0], 1⟩ := by
        simp only [Polling.c4State]
        rw [if_pos (by omega)]
        norm_num
      rw [hst]
      obtain ⟨e1, e2⟩ := pollTick_live_cap shutterId t (q 22) (q 23) (2500 * 23)
        (hq 23) (by omega)
      constructor
      · rw [e1]
        simp only [Polling.c4State]
        rw [if_neg (show ¬(23 + 1 < 24) by omega),
          show (60000 : Nat) = 2500 * 23 + 2500 by norm_num]
      · unfold Polling.capLogCount at ih2 e2 ⊢
        rw [List.countP_append, ih2, e2]
        split_ifs <;> omega
    · -- after the cap: the interval is gone, nothing fires
      have hst : Polling.c4State t q n = ⟨⟨⟨t, q 23⟩, none, 60000⟩, [], 1⟩ := by
        simp only [Polling.c4State]
        rw [if_neg (by omega)]
      rw [hst, pollTick_dead _ _ _ _ rfl]
      constructor
      · show (⟨⟨⟨t, q 23⟩, none, 60000⟩, [], 1⟩ : Polling.Sys) = Polling.c4State t q (n + 1)
        simp only [Polling.c4State]
        rw [if_neg (by omega)]
      · show Polling.capLogCount shutterId
            ((Polling.pollRun Polling.defaultPlatform shutterId (fun k => .ok (q k))
              (Polling.sessionStart t) n).2 ++ []) = if 24 ≤ n + 1 then 1 else 0
        unfold Polling.capLogCount at ih2 ⊢
        rw [List.append_nil, ih2]
        split_ifs <;> omega

/-- Claim C4: given a default-configuration polling session started by
`handleTargetPositionSet` on a fresh shutter (60000 ms cap, 2500 ms interval)
whose hub readings `q` never equal the target, the interval stays scheduled
through the first 23 firings and is cleared exactly on the 24th, at which
point the accumulated elapsed time equals the configured maximum, and the
cap-reached log line is emitted exactly once over the whole session. -/
theorem polling_caps_at_tick_24 (t : Int) (q : Nat → Int) (shutterId : Int)
    (hq : ∀ n, q n ≠ t) :
    (∀ r, (Polling.handleTargetPositionSet Polling.initSys shutterId t r).sys =
      Polling.sessionStart t) ∧
    (∀ n, (Polling.pollRun Polling.defaultPlatform shutterId (fun k => .ok (q k))
        (Polling.sessionStart t) n).1.shutter.updateTargetInterval =
      if n < 24 then some 0 else none) ∧
    (Polling.pollRun Polling.defaultPlatform shutterId (fun k => .ok (q k))
        (Polling.sessionStart t) 24).1.shutter.intervalDurationSum =
      Polling.defaultPlatform.maxPollingTime ∧
    (∀ n, Polling.capLogCount shutterId
        (Polling.pollRun Polling.defaultPlatform shutterId (fun k => .ok (q k))
          (Polling.sessionStart t) n).2 = if 24 ≤ n then 1 else 0) := by
  refine ⟨fun r => by cases r <;> rfl, fun n => ?_, ?_, fun n => ?_⟩
  · rw [(pollRun_neverConverge t q shutterId hq n).1]
    simp only [Polling.c4State]
    split_ifs <;> rfl
  · rw [(pollRun_neverConverge t q shutterId hq 24).1]
    rfl
  · exact (pollRun_neverConverge t q shutterId hq n).2

/-- Claim C4, witness: target 7, hub stuck at 5 — after the 24th firing the
interval is cleared and exactly one cap-reached log line was emitted. -/
theorem polling_caps_at_tick_24_witness :
    (Polling.pollRun Polling.defaultPlatform 1 (fun _ => .ok 5)
        (Polling.sessionStart 7) 24).1.shutter.updateTargetInterval = none ∧
    Polling.capLogCount 1
      (Polling.pollRun Polling.defaultPlatform 1 (fun _ => .ok 5)
        (Polling.sessionStart 7) 24).2 = 1 := by
  have h := polling_caps_at_tick_24 7 (fun _ => 5) 1 (fun n => by norm_num)
  constructor
  · have h2 := h.2.1 24
    simpa using h2
  · have h4 := h.2.2.2 24
    simpa using h4

end IFeelShutters
